import Mathlib

/-!
Verification of the message classification, correlation and dispatch layer of
`jsonrpcstomp.py` (a JSON-RPC 2.0-style layer on top of a STOMP pub/sub
transport), as a shallow embedding in Lean.

Python values decoded from JSON bodies are modelled by `Json`.  Python's
`None` (which `json.loads` produces both for an absent key and for an explicit
JSON `null` after `dict.get`) is modelled by `Option Json` with `none`.
Exceptions are modelled by `Except PyErr`.  The `json.loads` primitive on
strings is an explicit parameter `loads` (the library codec is out of scope);
everything else is translated from the source.
-/

/-- A decoded JSON value (the result of Python's `json.loads`). -/
inductive Json where
  | null
  | bool (b : Bool)
  | num (n : Int)
  | str (s : String)
  | arr (elems : List Json)
  | obj (fields : List (String × Json))
deriving Repr

/-- Python exception kinds raised by the code under study. -/
inductive PyErr where
  | typeError
  | keyError
  | valueError
  | attributeError
  | notConnectedError
  | handlerFault
deriving DecidableEq, Repr

/-- Association-list lookup with decidable keys; insertion is modelled by
`cons`, so the first match is the most recent binding (Python dict overwrite
semantics for lookup). -/
def alookup {α β : Type} [DecidableEq α] : List (α × β) → α → Option β
  | [], _ => none
  | (k, v) :: rest, key => if key = k then some v else alookup rest key

/-- `json_msg.get(key)` on a decoded JSON object: Python returns `None` both
when the key is absent and when its value is JSON `null` (`json.loads` objects
have unique keys). -/
def pyGet (fields : List (String × Json)) (key : String) : Option Json :=
  match alookup fields key with
  | some .null => none
  | some v => some v
  | none => none

/-- Python `s.startswith(p)` as a character-list prefix test. -/
def strStartsWith (s p : String) : Bool :=
  p.data.isPrefixOf s.data

/-- The last component of Python `s.partition(sep)` on character lists: the
part after the first occurrence of `sep`, or `[]` when `sep` does not occur. -/
def listPartAfter : List Char → List Char → List Char
  | [], _ => []
  | c :: rest, sep =>
    if sep.isPrefixOf (c :: rest) then (c :: rest).drop sep.length
    else listPartAfter rest sep

/-- `destination.partition(sep)[-1]` on strings. -/
def pyPartAfter (s sep : String) : String :=
  ⟨listPartAfter s.data sep.data⟩

-- Topic and protocol constants (module-level constants of jsonrpcstomp.py).
def PREFIX_TOPIC_MESSAGE : String := "/topic/msg.local."
def PREFIX_TOPIC_JOB : String := "/topic/req.local."
def PREFIX_REPLY : String := "/topic/reply-"
def JSONRPC_KEY_VERSION : String := "2.0"
def JSONRPC_VALUE_ERROR_INT_ERR : Int := -32603
def JSONRPC_VALUE_MSG_INT_ERR : String := "Internal error"
def MSG_QUIT : String := "quit"

/-- STOMP acknowledgment modes (`ACK_CLIENT = 'client'`, `ACK_AUTO = 'auto'`). -/
inductive AckMode where
  | client
  | auto
deriving DecidableEq, Repr

/-- The four message kinds (`MSG_TYPE_JOB`, `MSG_TYPE_NOT`,
`MSG_TYPE_CALLBACK_SUCCESS`, `MSG_TYPE_CALLBACK_ERROR`). -/
inductive MsgType where
  | job
  | notification
  | callback_success
  | callback_error
deriving DecidableEq, Repr

/-- A message delivered by the Transport: a raw body string and STOMP headers. -/
structure StompMessage where
  body : String
  headers : List (String × String)

/-- The attributes of a constructed `JSONRPCObject`.  Attributes that Python
sets only on some classification branches (`message_type`, `notification`,
`reply_to`) are `Option`s, with `none` meaning the attribute was never set
(accessing it raises `AttributeError`). -/
structure RPCObject where
  params : Option Json
  method : Option Json
  rpcId : Option Json
  result : Option Json
  error : Option Json
  message_type : Option MsgType
  notification : Option String
  reply_to : Option String

/-- `JSONRPCObject.__init__`: decode the body, pull the envelope fields, and
classify by presence of `id` and destination prefix.  `loads` is the
`json.loads` primitive; a body that is not a JSON object makes the subsequent
`.get` attribute accesses fail, and a missing `destination` header makes
`None.partition` / `None.startswith` fail. -/
def mkRPCObject (loads : String → Except PyErr Json) (m : StompMessage) :
    Except PyErr RPCObject :=
  let destination := alookup m.headers "destination"
  match loads m.body with
  | .error e => .error e
  | .ok body =>
    match body with
    | .obj flds =>
      let params := pyGet flds "params"
      let method := pyGet flds "method"
      let rpcId := pyGet flds "id"
      let result := pyGet flds "result"
      let error := pyGet flds "error"
      match destination with
      | none => .error .attributeError
      | some d =>
        if rpcId.isNone then
          .ok { params := params, method := method, rpcId := rpcId,
                result := result, error := error,
                message_type := some .notification,
                notification := some (pyPartAfter d PREFIX_TOPIC_MESSAGE),
                reply_to := none }
        else
          let o0 : RPCObject :=
            { params := params, method := method, rpcId := rpcId,
              result := result, error := error,
              message_type := none, notification := none, reply_to := none }
          let o1 :=
            if strStartsWith d PREFIX_TOPIC_JOB then
              { o0 with message_type := some .job,
                        method := some (.str (pyPartAfter d PREFIX_TOPIC_JOB)),
                        reply_to := alookup m.headers "reply-to" }
            else o0
          if strStartsWith d PREFIX_REPLY then
            let mt : MsgType :=
              if result.isSome then .callback_success else .callback_error
            .ok { o1 with message_type := some mt }
          else .ok o1
    | _ => .error .attributeError

/-- A registered job handler: called with keyword arguments, returns a result
or raises. -/
def Handler : Type := List (String × Json) → Except PyErr Json

/-- A registered notification handler: called with keyword arguments. -/
def NHandler : Type := List (String × Json) → Except PyErr Unit

/-- A call callback (success or error): called with the reply's
`result`/`error` Python value. -/
def Callback : Type := Option Json → Except PyErr Unit

/-- The mutable state of a `JSONRPCStomp` instance. -/
structure Session where
  methods : List (String × Handler)
  notifiers : List (String × NHandler)
  callbacks_success : List (Int × Callback)
  callbacks_error : List (Int × Callback)
  is_connected : Bool
  last_id : Int
  reply_to_topic : Option String
  listen : Bool

/-- `JSONRPCStomp.__init__`: empty registries, not connected, counter at 0.
(`reply_to_topic` and `listen` are attributes Python creates later, in
`connect` and `run`.) -/
def initSession : Session :=
  { methods := [], notifiers := [],
    callbacks_success := [], callbacks_error := [],
    is_connected := false, last_id := 0,
    reply_to_topic := none, listen := true }

/-- Observable effects on the Transport and the callback tables. -/
inductive Event where
  | published (body : Json) (dest : Option String) (hdrs : List (String × String))
  | subscribed (dest : String) (ack : AckMode)
  | invokedSuccess (id : Int) (arg : Option Json)
  | invokedError (id : Int) (arg : Option Json)

/-- `connect`: retry until the transport connects (always eventually succeeds,
abstracted), generate the random reply topic from `token`, subscribe to it with
client ack, and mark connected.  `last_id` and the registries are untouched. -/
def connect (token : String) (s : Session) : Session × List Event :=
  let rt := PREFIX_REPLY ++ token
  ({ s with reply_to_topic := some rt, is_connected := true },
   [.subscribed rt .client])

/-- `disconnect`: mark not connected; registries are kept. -/
def disconnect (s : Session) : Session × List Event :=
  ({ s with is_connected := false }, [])

/-- `accept_notifications`: requires a connected session, registers the
handler and subscribes to the notification topic with auto ack. -/
def accept_notifications (s : Session) (method : String) (callback : NHandler) :
    Except PyErr (Session × List Event) :=
  if s.is_connected then
    .ok ({ s with notifiers := (method, callback) :: s.notifiers },
         [.subscribed (PREFIX_TOPIC_MESSAGE ++ method) .auto])
  else .error .notConnectedError

/-- `accept_calls`: requires a connected session, registers the handler and
subscribes to the job topic with auto ack (`self.subscribe(method_name,
ACK_AUTO)` in the source). -/
def accept_calls (s : Session) (method : String) (callback : Handler) :
    Except PyErr (Session × List Event) :=
  if s.is_connected then
    .ok ({ s with methods := (method, callback) :: s.methods },
         [.subscribed (PREFIX_TOPIC_JOB ++ method) .auto])
  else .error .notConnectedError

/-- The JSON body published by `notify`. -/
def notifyBody (method : String) (params : Json) : Json :=
  .obj [("jsonrpc", .str JSONRPC_KEY_VERSION),
        ("method", .str method),
        ("params", params)]

/-- `notify`: publish a request-shaped envelope with no `id` to the
notification topic; no correlation entry is created. -/
def notify (s : Session) (method : String) (params : Json) :
    Session × List Event :=
  (s, [.published (notifyBody method params)
        (some (PREFIX_TOPIC_MESSAGE ++ method)) []])

/-- The JSON body published by `call` for correlation id `i`. -/
def callBody (method : String) (i : Int) (params : Json) : Json :=
  .obj [("jsonrpc", .str JSONRPC_KEY_VERSION),
        ("method", .str method),
        ("id", .num i),
        ("params", params)]

/-- `call`: allocate `last_id + 1`, register the callback pair under it, and
publish to the job topic with a `reply-to` header naming the session's reply
topic.  The counter and the tables are mutated before the publish, so they
stay mutated even when the publish fails (no `reply_to_topic` attribute, i.e.
`connect` never ran): hence the state is returned alongside the possible
exception. -/
def call (s : Session) (method : String) (params : Json)
    (callback_success callback_error : Callback) :
    Session × Except PyErr (List Event) :=
  let trans_id := s.last_id + 1
  let s1 := { s with
    last_id := trans_id,
    callbacks_success := (trans_id, callback_success) :: s.callbacks_success,
    callbacks_error := (trans_id, callback_error) :: s.callbacks_error }
  match s.reply_to_topic with
  | some rt =>
    (s1, .ok [.published (callBody method trans_id params)
               (some (PREFIX_TOPIC_JOB ++ method)) [("reply-to", rt)]])
  | none => (s1, .error .attributeError)

/-- Python `len` on a decoded JSON value (`len(rpco.params)`): defined on
strings, lists and dicts; `TypeError` on `None`, numbers and booleans. -/
def pyLen : Option Json → Except PyErr Nat
  | some (.str s) => .ok s.length
  | some (.arr elems) => .ok elems.length
  | some (.obj flds) => .ok flds.length
  | _ => .error .typeError

/-- `json.loads(rpco.params)` applied to an already-decoded value: only a
string is accepted (then handed to the codec primitive); anything else raises
`TypeError`. -/
def pyLoadsValue (loads : String → Except PyErr Json) :
    Option Json → Except PyErr Json
  | some (.str s) => loads s
  | _ => .error .typeError

/-- `**v` keyword-argument unpacking of a decoded value: only a dict works. -/
def pyKwargs : Option Json → Except PyErr (List (String × Json))
  | some (.obj flds) => .ok flds
  | _ => .error .typeError

/-- The params-decoding step of the Job branch: `if len(rpco.params) > 0:
params = json.loads(rpco.params) else: params = {}`, then `**params`
unpacking. -/
def jobArgs (loads : String → Except PyErr Json) (params : Option Json) :
    Except PyErr (List (String × Json)) :=
  match pyLen params with
  | .error e => .error e
  | .ok n =>
    if n > 0 then
      match pyLoadsValue loads params with
      | .error e => .error e
      | .ok v => pyKwargs (some v)
    else .ok []

/-- The `try` block of the Job branch of `_process_message`: decode `params`,
look the handler up by the method name extracted from the destination, and
invoke it with the decoded keyword arguments. -/
def jobCompute (loads : String → Except PyErr Json)
    (methods : List (String × Handler))
    (params : Option Json) (method : Option Json) : Except PyErr Json :=
  match jobArgs loads params with
  | .error e => .error e
  | .ok args =>
    match method with
    | some (.str name) =>
      match alookup methods name with
      | some h => h args
      | none => .error .keyError
    | _ => .error .keyError

/-- `json.dumps` of a possibly-`None` Python value (`None` becomes `null`). -/
def optToJson (v : Option Json) : Json := v.getD .null

/-- The success reply envelope published by the Job branch. -/
def successReply (rpcId : Option Json) (result : Json) : Json :=
  .obj [("jsonrpc", .str JSONRPC_KEY_VERSION),
        ("id", optToJson rpcId),
        ("result", result)]

/-- The Internal-Error reply envelope published by the Job branch's `except`
path: fixed code `-32603` and message `'Internal error'`, original `id`. -/
def internalErrorReply (rpcId : Option Json) : Json :=
  .obj [("jsonrpc", .str JSONRPC_KEY_VERSION),
        ("id", optToJson rpcId),
        ("error", .obj [("code", .num JSONRPC_VALUE_ERROR_INT_ERR),
                        ("message", .str JSONRPC_VALUE_MSG_INT_ERR)])]

/-- `_process_message`: the quit sentinel stops the loop; otherwise build the
`JSONRPCObject` and route on its kind.  Jobs publish exactly one reply (result
or Internal-Error) to the extracted `reply-to` destination; notifications
invoke the handler with no exception containment; callbacks look the
correlation id up and invoke the stored callback, never removing the entry. -/
def process_message (loads : String → Except PyErr Json) (s : Session)
    (m : StompMessage) : Except PyErr (Session × List Event) :=
  if m.body = MSG_QUIT then
    .ok ({ s with listen := false }, [])
  else
    match mkRPCObject loads m with
    | .error e => .error e
    | .ok rpco =>
      match rpco.message_type with
      | none => .error .attributeError
      | some .job =>
        match jobCompute loads s.methods rpco.params rpco.method with
        | .ok result =>
          .ok (s, [.published (successReply rpco.rpcId result) rpco.reply_to []])
        | .error _ =>
          .ok (s, [.published (internalErrorReply rpco.rpcId) rpco.reply_to []])
      | some .notification =>
        match rpco.notification with
        | none => .error .attributeError
        | some nm =>
          match alookup s.notifiers nm with
          | none => .error .keyError
          | some h =>
            match pyKwargs rpco.params with
            | .error e => .error e
            | .ok args =>
              match h args with
              | .ok _ => .ok (s, [])
              | .error e => .error e
      | some .callback_success =>
        match rpco.rpcId with
        | some (.num n) =>
          match alookup s.callbacks_success n with
          | none => .error .keyError
          | some cb =>
            match cb rpco.result with
            | .ok _ => .ok (s, [.invokedSuccess n rpco.result])
            | .error e => .error e
        | _ => .error .keyError
      | some .callback_error =>
        match rpco.rpcId with
        | some (.num n) =>
          match alookup s.callbacks_error n with
          | none => .error .keyError
          | some cb =>
            match cb rpco.error with
            | .ok _ => .ok (s, [.invokedError n rpco.error])
            | .error e => .error e
        | _ => .error .keyError

/-- One iteration's outcome of `self.get()` inside `run`: a message, or a
transport-level receive failure (caught and retried by the loop). -/
inductive RecvResult where
  | ok (m : StompMessage)
  | err

/-- The body of `run`'s loop over a finite schedule of receive outcomes:
receive failures are swallowed (sleep and continue); `_process_message`
exceptions are NOT caught and propagate, terminating the loop; the quit
sentinel clears `listen` and ends the loop. -/
def runLoopAux (loads : String → Except PyErr Json) :
    Session → List RecvResult → Except PyErr (Session × List Event)
  | s, [] => .ok (s, [])
  | s, .err :: rest => runLoopAux loads s rest
  | s, .ok m :: rest =>
    match process_message loads s m with
    | .error e => .error e
    | .ok (s1, evs) =>
      if s1.listen then
        match runLoopAux loads s1 rest with
        | .error e => .error e
        | .ok (s2, evs2) => .ok (s2, evs ++ evs2)
      else .ok (s1, evs)

/-- `run`: set `listen := True`, then loop. -/
def run (loads : String → Except PyErr Json) (s : Session)
    (inputs : List RecvResult) : Except PyErr (Session × List Event) :=
  runLoopAux loads { s with listen := true } inputs

/-- A session-mutating operation a caller can perform between message
deliveries. -/
inductive SOp where
  | callOp (method : String) (params : Json) (cS cE : Callback)
  | connectOp (token : String)
  | disconnectOp
  | acceptCallsOp (method : String) (h : Handler)
  | acceptNotificationsOp (method : String) (h : NHandler)

/-- Apply an operation, keeping the resulting session state.  Python keeps
`call`'s mutations even when its publish raises, hence `(call ...).1`; the
two registration methods raise before mutating, so their error branches leave
the state unchanged. -/
def applySOp (s : Session) : SOp → Session
  | .callOp m p cS cE => (call s m p cS cE).1
  | .connectOp tok => (connect tok s).1
  | .disconnectOp => (disconnect s).1
  | .acceptCallsOp m h =>
    match accept_calls s m h with
    | .ok (s1, _) => s1
    | .error _ => s
  | .acceptNotificationsOp m h =>
    match accept_notifications s m h with
    | .ok (s1, _) => s1
    | .error _ => s

/-- The correlation ids allocated by the `call`s of an operation sequence,
in order. -/
def allocatedIds (s : Session) : List SOp → List Int
  | [] => []
  | op :: rest =>
    match op with
    | .callOp _ _ _ _ => (s.last_id + 1) :: allocatedIds (applySOp s op) rest
    | _ => allocatedIds (applySOp s op) rest

/-! ### Concrete fixtures used to instantiate the theorems -/

/-- A concrete `json.loads` codec covering the bodies used in instantiations. -/
def loadsW : String → Except PyErr Json := fun s =>
  if s = "w-notif" then .ok (.obj [("params", .obj [])])
  else if s = "w-reply-res" then .ok (.obj [("id", .num 1), ("result", .num 5)])
  else if s = "w-reply-err" then .ok (.obj [("id", .num 1), ("error", .str "boom")])
  else if s = "w-reply-null" then .ok (.obj [("id", .num 1), ("result", Json.null)])
  else if s = "w-job-noparams" then .ok (.obj [("id", .num 1)])
  else if s = "w-job-empty" then .ok (.obj [("id", .num 1), ("params", .str "")])
  else .error .valueError

/-- A job handler fixture that ignores its arguments and returns `7`. -/
def handlerW : Handler := fun _ => .ok (.num 7)

/-- A connected session fixture with the method `add` registered. -/
def sessW : Session :=
  { initSession with
    is_connected := true
    reply_to_topic := some "/topic/reply-TOK"
    methods := [("add", handlerW)] }

/-- A job message for `add` whose envelope has no `params` field. -/
def msgJobNoParams : StompMessage :=
  ⟨"w-job-noparams", [("destination", "/topic/req.local.add"),
                      ("reply-to", "/topic/reply-RT")]⟩

/-- A job message for `add` whose `params` field is the empty string. -/
def msgJobEmpty : StompMessage :=
  ⟨"w-job-empty", [("destination", "/topic/req.local.add"),
                   ("reply-to", "/topic/reply-RT")]⟩

/-- A callback fixture that accepts any reply value. -/
def cbW : Callback := fun _ => .ok ()

/-- The session state after `call("add", {}, cbW, cbW)` on `sessW`. -/
def s1W : Session := (call sessW "add" (.obj []) cbW cbW).1

/-- The publish outcome of that same `call`. -/
def evsW : Except PyErr (List Event) := (call sessW "add" (.obj []) cbW cbW).2

/-- A notification handler fixture that always raises. -/
def nfailW : NHandler := fun _ => .error .handlerFault

/-- A connected session fixture with the notification `ping` registered to a
raising handler. -/
def sessN : Session :=
  { initSession with
    is_connected := true
    reply_to_topic := some "/topic/reply-TOK"
    notifiers := [("ping", nfailW)] }

/-- A notification message for `ping` with empty object params. -/
def msgNotif : StompMessage :=
  ⟨"w-notif", [("destination", "/topic/msg.local.ping")]⟩

/-- The reply message matching the `call` recorded in `s1W`. -/
def msgReplyW : StompMessage :=
  ⟨"w-reply-res", [("destination", "/topic/reply-TOK")]⟩

/-! ### Helper lemmas -/

theorem listPartAfter_of_isPrefixOf (l sep : List Char)
    (h : sep.isPrefixOf l = true) :
    listPartAfter l sep = l.drop sep.length := by
  cases l with
  | nil =>
    cases sep with
    | nil => rfl
    | cons c cs => simp [List.isPrefixOf] at h
  | cons c rest => simp [listPartAfter, h]

theorem pyPartAfter_of_startsWith (d p : String)
    (h : strStartsWith d p = true) :
    pyPartAfter d p = ⟨d.data.drop p.data.length⟩ := by
  unfold pyPartAfter
  rw [listPartAfter_of_isPrefixOf _ _ h]

theorem strStartsWith_append (p r : String) :
    strStartsWith (p ++ r) p = true := by
  simp [strStartsWith, List.isPrefixOf_iff_prefix, String.data_append]

theorem pyPartAfter_append (p r : String) :
    pyPartAfter (p ++ r) p = r := by
  rw [pyPartAfter_of_startsWith _ _ (strStartsWith_append p r)]
  simp [String.data_append]

theorem pyGet_of_null (flds : List (String × Json)) (k : String)
    (h : alookup flds k = some .null) : pyGet flds k = none := by
  simp [pyGet, h]

/-! ### Claims -/

/-- C4: a transport message whose envelope has no `id` field is classified as
a Notification regardless of the destination's prefix, and the notification
name is the destination with the notification-topic prefix stripped. -/
theorem claim_C4_id_absent_notification
    (loads : String → Except PyErr Json) (m : StompMessage)
    (flds : List (String × Json)) (d rest : String)
    (hload : loads m.body = .ok (.obj flds))
    (hdest : alookup m.headers "destination" = some d)
    (hid : pyGet flds "id" = none) :
    ∃ o, mkRPCObject loads m = .ok o ∧
      o.message_type = some .notification ∧
      o.notification = some (pyPartAfter d PREFIX_TOPIC_MESSAGE) ∧
      (d = PREFIX_TOPIC_MESSAGE ++ rest → o.notification = some rest) := by
  refine ⟨{ params := pyGet flds "params", method := pyGet flds "method",
            rpcId := none, result := pyGet flds "result",
            error := pyGet flds "error",
            message_type := some .notification,
            notification := some (pyPartAfter d PREFIX_TOPIC_MESSAGE),
            reply_to := none }, ?_, rfl, rfl, ?_⟩
  · simp [mkRPCObject, hload, hdest, hid]
  · intro hd
    subst hd
    rw [pyPartAfter_append]

/-- Witness for C4 at a concrete no-`id` message on the notification topic. -/
theorem claim_C4_witness :
    ∃ o, mkRPCObject loadsW
        ⟨"w-notif", [("destination", "/topic/msg.local.ping")]⟩ = .ok o ∧
      o.message_type = some .notification ∧
      o.notification =
        some (pyPartAfter "/topic/msg.local.ping" PREFIX_TOPIC_MESSAGE) ∧
      ("/topic/msg.local.ping" = PREFIX_TOPIC_MESSAGE ++ "ping" →
        o.notification = some "ping") :=
  claim_C4_id_absent_notification loadsW
    ⟨"w-notif", [("destination", "/topic/msg.local.ping")]⟩
    [("params", .obj [])] "/topic/msg.local.ping" "ping" rfl rfl rfl

/-- C5: a message with an `id` whose destination carries the reply-topic
prefix is classified CallbackSuccess when `result` is present and
CallbackError otherwise. -/
theorem claim_C5_reply_classification
    (loads : String → Except PyErr Json) (m : StompMessage)
    (flds : List (String × Json)) (d : String) (i : Json)
    (hload : loads m.body = .ok (.obj flds))
    (hdest : alookup m.headers "destination" = some d)
    (hid : pyGet flds "id" = some i)
    (hrep : strStartsWith d PREFIX_REPLY = true) :
    ∃ o, mkRPCObject loads m = .ok o ∧
      ((pyGet flds "result").isSome = true →
        o.message_type = some .callback_success) ∧
      (pyGet flds "result" = none →
        o.message_type = some .callback_error) := by
  cases hjob : strStartsWith d PREFIX_TOPIC_JOB
  all_goals
    simp only [mkRPCObject, hload, hdest, hid, hjob, hrep]
    simp only [Option.isNone_some, Bool.false_eq_true, if_false, if_true]
    refine ⟨_, rfl, ?_, ?_⟩
  all_goals
    intro h
    simp [h]

/-- Witness for C5: a reply-topic message with a `result` field, instantiated
for the CallbackSuccess side (the `result`-absent implication is vacuous). -/
theorem claim_C5_witness :
    ∃ o, mkRPCObject loadsW
        ⟨"w-reply-res", [("destination", "/topic/reply-XYZ")]⟩ = .ok o ∧
      ((pyGet [("id", Json.num 1), ("result", Json.num 5)] "result").isSome =
          true → o.message_type = some .callback_success) ∧
      (pyGet [("id", Json.num 1), ("result", Json.num 5)] "result" = none →
        o.message_type = some .callback_error) :=
  claim_C5_reply_classification loadsW
    ⟨"w-reply-res", [("destination", "/topic/reply-XYZ")]⟩
    [("id", .num 1), ("result", .num 5)] "/topic/reply-XYZ" (.num 1)
    rfl rfl rfl rfl

/-- C10: a reply-topic message with an `id` whose `result` field is an
explicit JSON `null` is classified CallbackError, because Python's `dict.get`
makes a null `result` indistinguishable from an absent one. -/
theorem claim_C10_null_result_callback_error
    (loads : String → Except PyErr Json) (m : StompMessage)
    (flds : List (String × Json)) (d : String) (i : Json)
    (hload : loads m.body = .ok (.obj flds))
    (hdest : alookup m.headers "destination" = some d)
    (hid : pyGet flds "id" = some i)
    (hrep : strStartsWith d PREFIX_REPLY = true)
    (hres : alookup flds "result" = some Json.null) :
    ∃ o, mkRPCObject loads m = .ok o ∧
      o.message_type = some .callback_error := by
  have hnull : pyGet flds "result" = none := pyGet_of_null flds "result" hres
  cases hjob : strStartsWith d PREFIX_TOPIC_JOB
  all_goals
    simp only [mkRPCObject, hload, hdest, hid, hjob, hrep, hnull]
    simp only [Option.isNone_some, Option.isSome_none, Bool.false_eq_true,
      if_false, if_true]
    exact ⟨_, rfl, rfl⟩

/-- Witness for C10 at a concrete reply message carrying `"result": null`. -/
theorem claim_C10_witness :
    ∃ o, mkRPCObject loadsW
        ⟨"w-reply-null", [("destination", "/topic/reply-XYZ")]⟩ = .ok o ∧
      o.message_type = some .callback_error :=
  claim_C10_null_result_callback_error loadsW
    ⟨"w-reply-null", [("destination", "/topic/reply-XYZ")]⟩
    [("id", .num 1), ("result", Json.null)] "/topic/reply-XYZ" (.num 1)
    rfl rfl rfl rfl rfl

theorem mkRPCObject_job (loads : String → Except PyErr Json)
    (m : StompMessage) (flds : List (String × Json)) (d : String) (i : Json)
    (hload : loads m.body = .ok (.obj flds))
    (hdest : alookup m.headers "destination" = some d)
    (hid : pyGet flds "id" = some i)
    (hjob : strStartsWith d PREFIX_TOPIC_JOB = true)
    (hrep : strStartsWith d PREFIX_REPLY = false) :
    mkRPCObject loads m = .ok
      { params := pyGet flds "params",
        method := some (.str (pyPartAfter d PREFIX_TOPIC_JOB)),
        rpcId := some i, result := pyGet flds "result",
        error := pyGet flds "error",
        message_type := some .job, notification := none,
        reply_to := alookup m.headers "reply-to" } := by
  simp only [mkRPCObject, hload, hdest, hid, hjob, hrep, Option.isNone_some,
    Bool.false_eq_true, if_false, if_true]

/-- C3: for a Job message, any failure during params decoding or handler
execution publishes exactly one reply envelope, addressed to the extracted
`reply-to` destination, carrying the original `id` and the fixed
Internal-Error code and message. -/
theorem claim_C3_job_failure_internal_error
    (loads : String → Except PyErr Json) (s : Session) (m : StompMessage)
    (flds : List (String × Json)) (d : String) (i : Json) (e : PyErr)
    (hq : m.body ≠ MSG_QUIT)
    (hload : loads m.body = .ok (.obj flds))
    (hdest : alookup m.headers "destination" = some d)
    (hid : pyGet flds "id" = some i)
    (hjob : strStartsWith d PREFIX_TOPIC_JOB = true)
    (hrep : strStartsWith d PREFIX_REPLY = false)
    (hfail : jobCompute loads s.methods (pyGet flds "params")
        (some (.str (pyPartAfter d PREFIX_TOPIC_JOB))) = .error e) :
    process_message loads s m = .ok
      (s, [.published (internalErrorReply (some i))
            (alookup m.headers "reply-to") []]) := by
  have hmk := mkRPCObject_job loads m flds d i hload hdest hid hjob hrep
  simp only [process_message, if_neg hq, hmk, hfail]

/-- Witness for C3: the `add` job with absent `params` makes
`len(rpco.params)` raise, and exactly one Internal-Error reply with id `1`
goes to the `reply-to` destination. -/
theorem claim_C3_witness :
    process_message loadsW sessW msgJobNoParams = .ok
      (sessW, [.published (internalErrorReply (some (.num 1)))
                (some "/topic/reply-RT") []]) :=
  claim_C3_job_failure_internal_error loadsW sessW msgJobNoParams
    [("id", .num 1)] "/topic/req.local.add" (.num 1) .typeError
    (by decide) rfl rfl rfl rfl rfl rfl

/-- Counterexample to C2: the `add` job message with an absent `params` field
does NOT invoke the registered handler (which would publish a success reply
with `7`); `len(rpco.params)` raises on `None` and the Internal-Error path
runs instead. -/
theorem claim_C2_counterexample :
    process_message loadsW sessW msgJobNoParams = .ok
      (sessW, [.published (internalErrorReply (some (.num 1)))
                (some "/topic/reply-RT") []]) ∧
    process_message loadsW sessW msgJobNoParams ≠ .ok
      (sessW, [.published (successReply (some (.num 1)) (.num 7))
                (some "/topic/reply-RT") []]) := by
  have h1 : process_message loadsW sessW msgJobNoParams = .ok
      (sessW, [.published (internalErrorReply (some (.num 1)))
                (some "/topic/reply-RT") []]) := by rfl
  refine ⟨h1, ?_⟩
  rw [h1]
  simp [internalErrorReply, successReply, optToJson]

/-- C2 as amended: a Job whose `params` field is present and empty (empty
string, empty array or empty object) is decoded as an empty argument set and
the registered handler is invoked with no arguments; a Job with an absent
`params` field instead takes the Internal-Error reply path. -/
theorem claim_C2_amended_empty_params
    (loads : String → Except PyErr Json) (s : Session) (m : StompMessage)
    (flds : List (String × Json)) (d : String) (i : Json)
    (hq : m.body ≠ MSG_QUIT)
    (hload : loads m.body = .ok (.obj flds))
    (hdest : alookup m.headers "destination" = some d)
    (hid : pyGet flds "id" = some i)
    (hjob : strStartsWith d PREFIX_TOPIC_JOB = true)
    (hrep : strStartsWith d PREFIX_REPLY = false) :
    (∀ h : Handler,
      alookup s.methods (pyPartAfter d PREFIX_TOPIC_JOB) = some h →
      (pyGet flds "params" = some (.str "") ∨
       pyGet flds "params" = some (.arr []) ∨
       pyGet flds "params" = some (.obj [])) →
      process_message loads s m =
        match h [] with
        | .ok r => .ok (s, [.published (successReply (some i) r)
                             (alookup m.headers "reply-to") []])
        | .error _ => .ok (s, [.published (internalErrorReply (some i))
                                (alookup m.headers "reply-to") []])) ∧
    (pyGet flds "params" = none →
      process_message loads s m = .ok
        (s, [.published (internalErrorReply (some i))
              (alookup m.headers "reply-to") []])) := by
  have hmk := mkRPCObject_job loads m flds d i hload hdest hid hjob hrep
  constructor
  · intro h hmeth hparams
    have hargs : jobArgs loads (pyGet flds "params") = .ok [] := by
      rcases hparams with hp | hp | hp <;> simp [jobArgs, hp, pyLen]
    have hcomp : jobCompute loads s.methods (pyGet flds "params")
        (some (.str (pyPartAfter d PREFIX_TOPIC_JOB))) = h [] := by
      simp [jobCompute, hargs, hmeth]
    simp only [process_message, if_neg hq, hmk]
    cases hres : h [] with
    | ok r => simp only [hcomp, hres]
    | error e => simp only [hcomp, hres]
  · intro hp
    have hcomp : jobCompute loads s.methods (pyGet flds "params")
        (some (.str (pyPartAfter d PREFIX_TOPIC_JOB))) = .error .typeError := by
      simp [jobCompute, jobArgs, hp, pyLen]
    simp only [process_message, if_neg hq, hmk, hcomp]

/-- Witness for the amended C2: the `add` job with `params` equal to the
empty string invokes the handler with no arguments and publishes the success
reply `7`. -/
theorem claim_C2_amended_witness :
    (∀ h : Handler,
      alookup sessW.methods
          (pyPartAfter "/topic/req.local.add" PREFIX_TOPIC_JOB) = some h →
      (pyGet [("id", Json.num 1), ("params", Json.str "")] "params" =
          some (.str "") ∨
       pyGet [("id", Json.num 1), ("params", Json.str "")] "params" =
          some (.arr []) ∨
       pyGet [("id", Json.num 1), ("params", Json.str "")] "params" =
          some (.obj [])) →
      process_message loadsW sessW msgJobEmpty =
        match h [] with
        | .ok r => .ok (sessW, [.published (successReply (some (.num 1)) r)
                                 (alookup msgJobEmpty.headers "reply-to") []])
        | .error _ =>
            .ok (sessW, [.published (internalErrorReply (some (.num 1)))
                          (alookup msgJobEmpty.headers "reply-to") []])) ∧
    (pyGet [("id", Json.num 1), ("params", Json.str "")] "params" = none →
      process_message loadsW sessW msgJobEmpty = .ok
        (sessW, [.published (internalErrorReply (some (.num 1)))
                  (alookup msgJobEmpty.headers "reply-to") []])) :=
  claim_C2_amended_empty_params loadsW sessW msgJobEmpty
    [("id", .num 1), ("params", .str "")] "/topic/req.local.add" (.num 1)
    (by decide) rfl rfl rfl rfl rfl

theorem mkRPCObject_reply (loads : String → Except PyErr Json)
    (m : StompMessage) (flds : List (String × Json)) (d : String) (i : Json)
    (hload : loads m.body = .ok (.obj flds))
    (hdest : alookup m.headers "destination" = some d)
    (hid : pyGet flds "id" = some i)
    (hrep : strStartsWith d PREFIX_REPLY = true)
    (hjob : strStartsWith d PREFIX_TOPIC_JOB = false) :
    mkRPCObject loads m = .ok
      { params := pyGet flds "params", method := pyGet flds "method",
        rpcId := some i, result := pyGet flds "result",
        error := pyGet flds "error",
        message_type := some (if (pyGet flds "result").isSome
          then .callback_success else .callback_error),
        notification := none, reply_to := none } := by
  simp only [mkRPCObject, hload, hdest, hid, hjob, hrep, Option.isNone_some,
    Bool.false_eq_true, if_false, if_true]

/-- C1: after `call(m, p, onS, onE)`, delivering a reply on the session's
reply topic with the call's correlation id invokes `onS` with the reply's
`result` (or `onE` with the reply's `error`) exactly once: the dispatch
outcome is exactly the outcome of that one callback application, with a
single invocation event. -/
theorem claim_C1_call_reply_invokes_callback_once
    (loads : String → Except PyErr Json) (s s1 : Session)
    (method : String) (params : Json) (onS onE : Callback)
    (evs : Except PyErr (List Event))
    (rt b : String) (hdrs : List (String × String))
    (flds : List (String × Json))
    (hconn : s.reply_to_topic = some rt)
    (hcall : call s method params onS onE = (s1, evs))
    (hrep : strStartsWith rt PREFIX_REPLY = true)
    (hjob : strStartsWith rt PREFIX_TOPIC_JOB = false)
    (hq : b ≠ MSG_QUIT)
    (hload : loads b = .ok (.obj flds))
    (hdest : alookup hdrs "destination" = some rt)
    (hid : pyGet flds "id" = some (.num (s.last_id + 1))) :
    (∀ r, pyGet flds "result" = some r →
      process_message loads s1 ⟨b, hdrs⟩ =
        (onS (some r)).map
          (fun _ => (s1, [.invokedSuccess (s.last_id + 1) (some r)]))) ∧
    (pyGet flds "result" = none →
      process_message loads s1 ⟨b, hdrs⟩ =
        (onE (pyGet flds "error")).map
          (fun _ => (s1, [.invokedError (s.last_id + 1)
                           (pyGet flds "error")]))) := by
  have hs1 : s1 = { s with
      last_id := s.last_id + 1
      callbacks_success := (s.last_id + 1, onS) :: s.callbacks_success
      callbacks_error := (s.last_id + 1, onE) :: s.callbacks_error
      reply_to_topic := some rt } := by
    have h := hcall
    simp only [call, hconn, Prod.mk.injEq] at h
    exact h.1.symm
  constructor
  · intro r hr
    have hmk := mkRPCObject_reply loads ⟨b, hdrs⟩ flds rt
      (.num (s.last_id + 1)) hload hdest hid hrep hjob
    rw [hr] at hmk
    simp only [Option.isSome_some, if_true] at hmk
    simp only [process_message, if_neg hq, hmk, hs1]
    simp only [alookup, if_pos rfl]
    cases honS : onS (some r) <;> simp [honS, Except.map]
  · intro hr
    have hmk := mkRPCObject_reply loads ⟨b, hdrs⟩ flds rt
      (.num (s.last_id + 1)) hload hdest hid hrep hjob
    rw [hr] at hmk
    simp only [Option.isSome_none, Bool.false_eq_true, if_false] at hmk
    simp only [process_message, if_neg hq, hmk, hs1]
    simp only [alookup, if_pos rfl]
    cases honE : onE (pyGet flds "error") <;> simp [honE, Except.map]

/-- Witness for C1: `call("add", {}, cbW, cbW)` on `sessW` (id 1) followed by
the reply `{"id": 1, "result": 5}` on `/topic/reply-TOK`. -/
theorem claim_C1_witness :
    (∀ r, pyGet [("id", Json.num 1), ("result", Json.num 5)] "result" =
        some r →
      process_message loadsW s1W
          ⟨"w-reply-res", [("destination", "/topic/reply-TOK")]⟩ =
        (cbW (some r)).map
          (fun _ => (s1W, [.invokedSuccess (sessW.last_id + 1) (some r)]))) ∧
    (pyGet [("id", Json.num 1), ("result", Json.num 5)] "result" = none →
      process_message loadsW s1W
          ⟨"w-reply-res", [("destination", "/topic/reply-TOK")]⟩ =
        (cbW (pyGet [("id", Json.num 1), ("result", Json.num 5)] "error")).map
          (fun _ => (s1W, [.invokedError (sessW.last_id + 1)
            (pyGet [("id", Json.num 1), ("result", Json.num 5)] "error")]))) :=
  claim_C1_call_reply_invokes_callback_once loadsW sessW s1W "add" (.obj [])
    cbW cbW evsW "/topic/reply-TOK" "w-reply-res"
    [("destination", "/topic/reply-TOK")]
    [("id", .num 1), ("result", .num 5)]
    rfl rfl rfl rfl (by decide) rfl rfl rfl

theorem call_fst_last_id (s : Session) (m : String) (p : Json)
    (cS cE : Callback) : (call s m p cS cE).1.last_id = s.last_id + 1 := by
  cases h : s.reply_to_topic <;> simp [call, h]

theorem call_fst_callbacks_success (s : Session) (m : String) (p : Json)
    (cS cE : Callback) :
    (call s m p cS cE).1.callbacks_success =
      (s.last_id + 1, cS) :: s.callbacks_success := by
  cases h : s.reply_to_topic <;> simp [call, h]

theorem call_fst_callbacks_error (s : Session) (m : String) (p : Json)
    (cS cE : Callback) :
    (call s m p cS cE).1.callbacks_error =
      (s.last_id + 1, cE) :: s.callbacks_error := by
  cases h : s.reply_to_topic <;> simp [call, h]

theorem applySOp_last_id_le (s : Session) (op : SOp) :
    s.last_id ≤ (applySOp s op).last_id := by
  cases op with
  | callOp m p cS cE =>
    simp only [applySOp]
    rw [call_fst_last_id]
    omega
  | connectOp tok => simp [applySOp, connect]
  | disconnectOp => simp [applySOp, disconnect]
  | acceptCallsOp m h =>
    simp only [applySOp, accept_calls]
    cases hc : s.is_connected <;> simp
  | acceptNotificationsOp m h =>
    simp only [applySOp, accept_notifications]
    cases hc : s.is_connected <;> simp

theorem allocatedIds_lt (ops : List SOp) :
    ∀ (s : Session) (i : Int), i ∈ allocatedIds s ops → s.last_id < i := by
  induction ops with
  | nil => intro s i h; simp [allocatedIds] at h
  | cons op rest ih =>
    intro s i h
    have hle := applySOp_last_id_le s op
    cases op with
    | callOp m p cS cE =>
      simp only [allocatedIds, List.mem_cons] at h
      rcases h with h | h
      · omega
      · have h2 := ih (applySOp s (.callOp m p cS cE)) i h
        omega
    | connectOp tok =>
      have h2 := ih (applySOp s (.connectOp tok)) i h
      omega
    | disconnectOp =>
      have h2 := ih (applySOp s .disconnectOp) i h
      omega
    | acceptCallsOp m hd =>
      have h2 := ih (applySOp s (.acceptCallsOp m hd)) i h
      omega
    | acceptNotificationsOp m hd =>
      have h2 := ih (applySOp s (.acceptNotificationsOp m hd)) i h
      omega

theorem allocatedIds_chain (ops : List SOp) :
    ∀ s : Session, List.Chain' (· < ·) (allocatedIds s ops) := by
  induction ops with
  | nil => intro s; simp [allocatedIds]
  | cons op rest ih =>
    intro s
    cases op with
    | callOp m p cS cE =>
      simp only [allocatedIds]
      refine List.chain'_cons'.mpr ⟨?_, ih _⟩
      intro y hy
      have hmem := List.mem_of_mem_head? hy
      have hlt := allocatedIds_lt rest (applySOp s (.callOp m p cS cE)) y hmem
      have : (applySOp s (.callOp m p cS cE)).last_id = s.last_id + 1 :=
        call_fst_last_id s m p cS cE
      omega
    | connectOp tok => exact ih _
    | disconnectOp => exact ih _
    | acceptCallsOp m hd => exact ih _
    | acceptNotificationsOp m hd => exact ih _

/-- C6: the correlation counter starts at 0, `call` allocates `last_id + 1`
and registers the callbacks under it, `connect` does not reset the counter,
and along any operation sequence (calls, reconnects, registrations) the
allocated ids are strictly increasing and never reused. -/
theorem claim_C6_ids_strictly_increasing :
    initSession.last_id = 0 ∧
    (∀ (s : Session) (m : String) (p : Json) (cS cE : Callback),
      (call s m p cS cE).1.last_id = s.last_id + 1 ∧
      (call s m p cS cE).1.callbacks_success =
        (s.last_id + 1, cS) :: s.callbacks_success) ∧
    (∀ (s : Session) (tok : String), (connect tok s).1.last_id = s.last_id) ∧
    (∀ (s : Session) (ops : List SOp),
      List.Chain' (· < ·) (allocatedIds s ops)) ∧
    (∀ (s : Session) (ops : List SOp), (allocatedIds s ops).Nodup) := by
  refine ⟨rfl, ?_, ?_, ?_, ?_⟩
  · intro s m p cS cE
    exact ⟨call_fst_last_id s m p cS cE, call_fst_callbacks_success s m p cS cE⟩
  · intro s tok; simp [connect]
  · intro s ops; exact allocatedIds_chain ops s
  · intro s ops
    have h := (List.chain'_iff_pairwise).mp (allocatedIds_chain ops s)
    exact h.nodup

/-- Counterexample to C7: `accept_calls` on a connected session subscribes to
the job topic with the automatic acknowledgment mode, not the client one
(`self.subscribe(method_name, ACK_AUTO)` in the source). -/
theorem claim_C7_counterexample :
    accept_calls sessW "echo" handlerW = .ok
      ({ sessW with methods := ("echo", handlerW) :: sessW.methods },
       [.subscribed (PREFIX_TOPIC_JOB ++ "echo") .auto]) ∧
    accept_calls sessW "echo" handlerW ≠ .ok
      ({ sessW with methods := ("echo", handlerW) :: sessW.methods },
       [.subscribed (PREFIX_TOPIC_JOB ++ "echo") .client]) := by
  have h1 : accept_calls sessW "echo" handlerW = .ok
      ({ sessW with methods := ("echo", handlerW) :: sessW.methods },
       [.subscribed (PREFIX_TOPIC_JOB ++ "echo") .auto]) := rfl
  refine ⟨h1, ?_⟩
  rw [h1]
  simp

/-- C7 as amended: for every string method name, `accept_calls` on a
connected session registers the handler and subscribes to the job topic for
that name with AUTOMATIC acknowledgment (auto ack mode). -/
theorem claim_C7_amended_accept_calls_auto_ack
    (s : Session) (m : String) (cb : Handler)
    (hconn : s.is_connected = true) :
    accept_calls s m cb = .ok
      ({ s with methods := (m, cb) :: s.methods },
       [.subscribed (PREFIX_TOPIC_JOB ++ m) .auto]) := by
  simp [accept_calls, hconn]

/-- Witness for the amended C7 on the connected fixture session. -/
theorem claim_C7_amended_witness :
    accept_calls sessW "echo" handlerW = .ok
      ({ sessW with methods := ("echo", handlerW) :: sessW.methods },
       [.subscribed (PREFIX_TOPIC_JOB ++ "echo") .auto]) :=
  claim_C7_amended_accept_calls_auto_ack sessW "echo" handlerW rfl

theorem mkRPCObject_notification (loads : String → Except PyErr Json)
    (m : StompMessage) (flds : List (String × Json)) (d : String)
    (hload : loads m.body = .ok (.obj flds))
    (hdest : alookup m.headers "destination" = some d)
    (hid : pyGet flds "id" = none) :
    mkRPCObject loads m = .ok
      { params := pyGet flds "params", method := pyGet flds "method",
        rpcId := none, result := pyGet flds "result",
        error := pyGet flds "error",
        message_type := some .notification,
        notification := some (pyPartAfter d PREFIX_TOPIC_MESSAGE),
        reply_to := none } := by
  simp [mkRPCObject, hload, hdest, hid]

/-- C8: a Notification message invokes the registered handler with the
decoded params as keyword arguments and never publishes a reply; a handler
exception is not caught by the dispatch layer, so it propagates out of
`_process_message` and terminates the `run` loop no matter what input would
have followed. -/
theorem claim_C8_notification_no_reply_exceptions_propagate
    (loads : String → Except PyErr Json) (s : Session) (m : StompMessage)
    (flds : List (String × Json)) (fs : List (String × Json))
    (d : String) (h : NHandler) (e : PyErr) (rest : List RecvResult)
    (hq : m.body ≠ MSG_QUIT)
    (hload : loads m.body = .ok (.obj flds))
    (hdest : alookup m.headers "destination" = some d)
    (hid : pyGet flds "id" = none)
    (hnot : alookup s.notifiers (pyPartAfter d PREFIX_TOPIC_MESSAGE) = some h)
    (hparams : pyGet flds "params" = some (.obj fs)) :
    process_message loads s m = (h fs).map (fun _ => (s, [])) ∧
    (h fs = .error e → run loads s (.ok m :: rest) = .error e) := by
  have key : ∀ s0 : Session,
      alookup s0.notifiers (pyPartAfter d PREFIX_TOPIC_MESSAGE) = some h →
      process_message loads s0 m = (h fs).map (fun _ => (s0, [])) := by
    intro s0 hn0
    have hmk := mkRPCObject_notification loads m flds d hload hdest hid
    simp only [process_message, if_neg hq, hmk, hn0, hparams, pyKwargs]
    cases hh : h fs <;> simp [hh, Except.map]
  refine ⟨key s hnot, ?_⟩
  intro he
  have hpm := key { s with listen := true } hnot
  rw [he] at hpm
  simp only [run, runLoopAux, hpm, Except.map]

/-- Witness for C8: the `ping` notification with empty params dispatched to a
raising handler; the dispatch outcome is the handler's exception and the run
loop dies with it. -/
theorem claim_C8_witness :
    process_message loadsW sessN msgNotif =
      (nfailW []).map (fun _ => (sessN, [])) ∧
    (nfailW [] = .error .handlerFault →
      run loadsW sessN [.ok msgNotif] = .error .handlerFault) :=
  claim_C8_notification_no_reply_exceptions_propagate loadsW sessN msgNotif
    [("params", .obj [])] [] "/topic/msg.local.ping" nfailW .handlerFault []
    (by decide) rfl rfl rfl rfl rfl

theorem process_message_preserves_callbacks
    (loads : String → Except PyErr Json) (s : Session) (m : StompMessage)
    (s2 : Session) (evs : List Event)
    (hok : process_message loads s m = .ok (s2, evs)) :
    s2.callbacks_success = s.callbacks_success ∧
    s2.callbacks_error = s.callbacks_error := by
  unfold process_message at hok
  repeat' split at hok
  all_goals
    first
    | exact Except.noConfusion hok
    | (injection hok with h
       injection h with ha hb
       subst ha
       exact ⟨rfl, rfl⟩)

/-- C9: dispatching a CallbackSuccess/CallbackError reply (indeed, processing
any message) never removes a correlation entry: both callback tables are
unchanged by `_process_message`, every registered entry is still found
afterwards, and each `call` strictly extends both tables, so they grow with
the number of calls ever made. -/
theorem claim_C9_correlation_entries_never_removed :
    (∀ (loads : String → Except PyErr Json) (s : Session) (m : StompMessage)
        (s2 : Session) (evs : List Event),
      process_message loads s m = .ok (s2, evs) →
      s2.callbacks_success = s.callbacks_success ∧
      s2.callbacks_error = s.callbacks_error) ∧
    (∀ (loads : String → Except PyErr Json) (s : Session) (m : StompMessage)
        (s2 : Session) (evs : List Event) (i : Int) (cb : Callback),
      process_message loads s m = .ok (s2, evs) →
      alookup s.callbacks_success i = some cb →
      alookup s2.callbacks_success i = some cb) ∧
    (∀ (s : Session) (m : String) (p : Json) (cS cE : Callback),
      (call s m p cS cE).1.callbacks_success =
        (s.last_id + 1, cS) :: s.callbacks_success ∧
      (call s m p cS cE).1.callbacks_error =
        (s.last_id + 1, cE) :: s.callbacks_error) := by
  refine ⟨?_, ?_, ?_⟩
  · intro loads s m s2 evs hok
    exact process_message_preserves_callbacks loads s m s2 evs hok
  · intro loads s m s2 evs i cb hok hcb
    rw [(process_message_preserves_callbacks loads s m s2 evs hok).1]
    exact hcb
  · intro s m p cS cE
    exact ⟨call_fst_callbacks_success s m p cS cE,
           call_fst_callbacks_error s m p cS cE⟩

/-- Witness for C9: after `call` registered id 1 and the matching reply was
dispatched (invoking the stored callback), the correlation entry for id 1 is
still in the success table. -/
theorem claim_C9_witness :
    alookup s1W.callbacks_success 1 = some cbW :=
  claim_C9_correlation_entries_never_removed.2.1 loadsW s1W msgReplyW s1W
    [.invokedSuccess 1 (some (.num 5))] 1 cbW rfl rfl
